import Mathlib

/-!
Shallow embedding of the `experitorch` repository
(`src/experitorch/experiment.py` and `src/experitorch/auto_loading.py`).

Modelling choices, stated once:
* Python objects found inside modules (classes, functions, ...) are opaque
  identifiers (`PyObj := Nat`); YAML-serializable values are `PyVal`.
* The file system is an explicit state `FS` (a list of directories and an
  association list of files); `os`-level primitives (`os.mkdir`,
  `os.makedirs`, `os.path.exists`, `os.path.isfile`, `open(..., "r"/"w")`,
  `torch.save` / `torch.load`) are modelled as total functions on `FS`,
  returning `Except PyErr` where the Python call can raise.  YAML / torch
  serialization round-trips structurally (a file stores the `PyVal` that was
  written), so parse errors of hand-corrupted files are out of scope.
* The wall clock is a parameter: `time.strftime(...)` becomes an explicit
  `timestamp : String` argument.
* Python's `@dataclass(frozen=True)` generates a `__setattr__` that raises
  `FrozenInstanceError` on every attribute assignment on an instance of the
  decorated class itself.  `Experiment` and `PathCreator` keep their
  hand-written `__init__`, so each `self.attr = ...` statement inside those
  initializers goes through the frozen `__setattr__`: this is embedded by
  `frozenSetattr`.  `PathGenerator` has no hand-written `__init__` (the
  dataclass-generated one uses `object.__setattr__`), so its construction is
  plain `PathGenerator.mk`.
* Logging (`get_logger`, `logger.info/error/warning`) has no observable
  effect in this model and is dropped; the two advisory warnings of
  `auto_loading.py` (member imported from elsewhere, model not a
  `nn.Module`) only log and never change the returned value for the class
  members considered here, so they are dropped as well.
-/

namespace Experitorch

/-- Opaque identifier standing for a Python object found inside a module. -/
abbrev PyObj := Nat

/-- YAML-serializable Python values (enough structure for the claims). -/
inductive PyVal where
  | str : String → PyVal
  | int : Int → PyVal
  | dict : List (String × PyVal) → PyVal

/-- A Python `dict` with string keys, as an association list (unique keys). -/
abbrev PyDict := List (String × PyVal)

/-- The Python exceptions the embedded code can raise.  The spec's names map
as: ModuleNotFound ↦ `moduleNotFoundError`, ComponentNotFound ↦
`attributeError`, AlreadyExists ↦ `fileExistsError`, InvalidConfig /
UnknownCategory ↦ `typeError` / `attributeError`, PathNotFound ↦
`fileNotFoundError`. -/
inductive PyErr where
  | moduleNotFoundError
  | attributeError
  | frozenInstanceError
  | fileExistsError
  | fileNotFoundError
  | isADirectoryError
  | keyError
  | typeError
deriving DecidableEq

/-- First-match association-list lookup (Python `dict` access /
`getattr`). -/
def lookupStr {β : Type} : List (String × β) → String → Option β
  | [], _ => none
  | (k, v) :: rest, key => if k = key then some v else lookupStr rest key

/-- `d[k]` on a Python dict: `KeyError` when the key is absent. -/
def dictGet (d : PyDict) (k : String) : Except PyErr PyVal :=
  match lookupStr d k with
  | some v => .ok v
  | none => .error .keyError

/-- `str(v)` as used inside f-strings.  `str()` of a dict is never reached
by the embedded call sites with a dict argument in the claims; it is
rendered as an unstructured token. -/
def PyVal.format : PyVal → String
  | .str s => s
  | .int n => toString n
  | .dict _ => "\x7b...\x7d"

/-- `os.path.join` for the relative second components used throughout. -/
def joinPath (a b : String) : String := a ++ "/" ++ b

/-- `os.path.dirname`: everything before the last `/` (empty when there is
no `/`). -/
def dirname (p : String) : String :=
  match p.toList.reverse.dropWhile (fun c => c ≠ '/') with
  | [] => ""
  | _ :: rest => String.mk rest.reverse

/-- File-system state: existing directories and files with their stored
(serialized) contents. -/
structure FS where
  dirs : List String
  files : List (String × PyVal)

/-- `os.path.isfile`. -/
def FS.isFile (fs : FS) (p : String) : Bool := (lookupStr fs.files p).isSome

/-- `os.path.exists`: true for a directory or a file. -/
def FS.existsPath (fs : FS) (p : String) : Bool := fs.dirs.contains p || fs.isFile p

/-- `os.mkdir p`: fails if `p` exists or its parent directory is missing
(a path with empty dirname is relative to the working directory and
allowed). -/
def FS.mkdir (fs : FS) (p : String) : Except PyErr FS :=
  if fs.existsPath p then .error .fileExistsError
  else if dirname p ∈ fs.dirs ∨ dirname p = "" then .ok { fs with dirs := p :: fs.dirs }
  else .error .fileNotFoundError

/-- `os.makedirs(p, exist_ok=True)`: creates `p` (parents included — the
embedded call sites always have an existing parent, so only `p` itself is
recorded). -/
def FS.makedirs (fs : FS) (p : String) : FS :=
  { fs with dirs := if p ∈ fs.dirs then fs.dirs else p :: fs.dirs }

/-- `open(p, "r")` + deserialization: the stored value at `p`. -/
def FS.readFile (fs : FS) (p : String) : Except PyErr PyVal :=
  if p ∈ fs.dirs then .error .isADirectoryError
  else
    match lookupStr fs.files p with
    | some v => .ok v
    | none => .error .fileNotFoundError

/-- `open(p, "w")` + serialization: overwrites the file at `p`; fails if `p`
is a directory or its parent directory is missing. -/
def FS.writeFile (fs : FS) (p : String) (v : PyVal) : Except PyErr FS :=
  if p ∈ fs.dirs then .error .isADirectoryError
  else if dirname p ∈ fs.dirs ∨ dirname p = "" then
    .ok { fs with files := (p, v) :: fs.files.filter (fun kv => kv.1 ≠ p) }
  else .error .fileNotFoundError

/-- The `__setattr__` generated by `@dataclass(frozen=True)`: any attribute
assignment on an instance of the decorated class raises
`FrozenInstanceError`.  Used to embed the bodies of the hand-written
initializers of `PathCreator` and `Experiment`. -/
def frozenSetattr (_attr : String) : Except PyErr Unit := .error .frozenInstanceError

/-! ## `auto_loading.py` — the component resolver -/

/-- The importable-module environment: module path ↦ module namespace
(member name ↦ member object).  Stands for what `importlib.import_module`
and `inspect.getmembers` can observe of the surrounding ecosystem. -/
structure ModuleEnv where
  modules : List (String × List (String × PyObj))

/-- `importlib.import_module`: `ModuleNotFoundError` when the path is not
importable. -/
def importModule (env : ModuleEnv) (path : String) : Except PyErr (List (String × PyObj)) :=
  match lookupStr env.modules path with
  | some members => .ok members
  | none => .error .moduleNotFoundError

/-- Python `str.lower()`, character by character (ASCII case folding, which
covers every identifier the convention produces). -/
def pyLower (s : String) : String := String.mk (s.toList.map Char.toLower)

/-- Code-point lexicographic order on character lists (Python's string
comparison, used by `list.sort` inside `inspect.getmembers`). -/
def lexLe : List Char → List Char → Bool
  | [], _ => true
  | _ :: _, [] => false
  | x :: xs, y :: ys => if x < y then true else if y < x then false else lexLe xs ys

/-- Python `<=` on strings. -/
def strLe (a b : String) : Bool := lexLe a.toList b.toList

/-- Stable insertion used by `getmembers` (ordering by member name). -/
def insertMember (x : String × PyObj) : List (String × PyObj) → List (String × PyObj)
  | [] => [x]
  | y :: ys => if strLe x.1 y.1 then x :: y :: ys else y :: insertMember x ys

/-- `inspect.getmembers`: the module's `(name, object)` pairs sorted by
name. -/
def getmembers (m : List (String × PyObj)) : List (String × PyObj) :=
  m.foldr insertMember []

/-- Python `list.index` (first occurrence), specialized to strings as in the
source's `component_members_header.index(component_name)`. -/
def indexOfStr : List String → String → Nat
  | [], _ => 0
  | x :: xs, a => if x = a then 0 else indexOfStr xs a + 1

/-- `get_model_component_class` of `auto_loading.py`, line by line:
lower-case `model_type`, `component_type` and `component_name` (NOT
`project`), import `<project>.models.<model_type>` then
`<project>.models.<model_type>.<component_type>` (raising
`ModuleNotFoundError`), build the lower-cased member-name header, raise
`AttributeError` when the name is absent, otherwise take the first match's
original casing and return `getattr(component_module, ...)` on it.  The
`inspect.getmodule` comparison only emits a warning and is dropped; the
unreachable `getattr` failure after a successful header match is mapped to
`AttributeError`. -/
def get_model_component_class (env : ModuleEnv) (project model_type component_type component_name : String) : Except PyErr PyObj :=
  let model_type := pyLower model_type
  let component_type := pyLower component_type
  let component_name := pyLower component_name
  let model_module_path := project ++ ".models." ++ model_type
  let component_module_path := project ++ ".models." ++ model_type ++ "." ++ component_type
  match importModule env model_module_path with
  | .error _ => .error .moduleNotFoundError
  | .ok _ =>
    match importModule env component_module_path with
    | .error _ => .error .moduleNotFoundError
    | .ok component_module =>
      let component_module_members := getmembers component_module
      let component_members_header := component_module_members.map (fun p => pyLower p.1)
      if component_name ∈ component_members_header then
        let member_idx := indexOfStr component_members_header component_name
        let component_name_right_case := (component_module_members.getD member_idx ("", 0)).1
        match lookupStr component_module component_name_right_case with
        | some component_class => .ok component_class
        | none => .error .attributeError
      else .error .attributeError

/-- `get_model_class`: resolves under component type `"model"` with the
model type itself as component name.  The `nn.Module` base-class walk only
logs a warning and never changes the returned value, so it is dropped. -/
def get_model_class (env : ModuleEnv) (project model_type : String) : Except PyErr PyObj :=
  get_model_component_class env project model_type "model" model_type

/-- `get_model_trainer`: component type `"trainer"`, component name
`model_type + "trainer"`. -/
def get_model_trainer (env : ModuleEnv) (project model_type : String) : Except PyErr PyObj :=
  let trainer_name := model_type ++ "trainer"
  get_model_component_class env project model_type "trainer" trainer_name

/-- `get_model_parameters`: component type `"config"`, component name
`model_type + "parameters"`. -/
def get_model_parameters (env : ModuleEnv) (project model_type : String) : Except PyErr PyObj :=
  let parameters_name := model_type ++ "parameters"
  get_model_component_class env project model_type "config" parameters_name

/-! ## `experiment.py` — path layout, lifecycle, persistence -/

/-- `PathGenerator` (a frozen dataclass with the generated initializer, so
constructing one succeeds). -/
structure PathGenerator where
  root : String

/-- `_concat_root_and_suffix`. -/
def PathGenerator.concat_root_and_suffix (p : PathGenerator) (suffix : String) : String :=
  joinPath p.root suffix

def PathGenerator.config_path (p : PathGenerator) : String :=
  p.concat_root_and_suffix "config.yaml"

def PathGenerator.checkpoint_path (p : PathGenerator) : String :=
  p.concat_root_and_suffix "checkpoints"

def PathGenerator.results_path (p : PathGenerator) : String :=
  p.concat_root_and_suffix "results"

def PathGenerator.tensorboard_path (p : PathGenerator) : String :=
  p.concat_root_and_suffix "tensorboard"

def PathGenerator.figures_path (p : PathGenerator) : String :=
  p.concat_root_and_suffix "figures"

/-- `getattr(path_generator, attr)` restricted to the string-valued
attributes an instance exposes; any other name raises `AttributeError`.
Note the class declares `checkpoint_path` (singular): there is no
`checkpoints_path` attribute. -/
def PathGenerator.getattrStr (p : PathGenerator) (attr : String) : Except PyErr String :=
  if attr = "root" then .ok p.root
  else if attr = "config_path" then .ok p.config_path
  else if attr = "checkpoint_path" then .ok p.checkpoint_path
  else if attr = "results_path" then .ok p.results_path
  else if attr = "tensorboard_path" then .ok p.tensorboard_path
  else if attr = "figures_path" then .ok p.figures_path
  else .error .attributeError

/-- `get_path_by_name`: `getattr(self, "_".join([name, "path"]))`. -/
def PathGenerator.get_path_by_name (p : PathGenerator) (name : String) : Except PyErr String :=
  p.getattrStr (String.intercalate "_" [name, "path"])

/-- `PathCreator` value (what its initializer would produce if it could). -/
structure PathCreator where
  path_generator : PathGenerator

/-- `PathCreator.__init__`: the class is `@dataclass(frozen=True)` and the
hand-written initializer assigns `self.path_generator`, which the frozen
`__setattr__` rejects. -/
def PathCreator.init (root : String) : Except PyErr PathCreator := do
  frozenSetattr "path_generator"
  pure ⟨PathGenerator.mk root⟩

/-- `create_config_file`: `yaml.dump(config)` into the layout's config path
(named `config.yaml`). -/
def PathCreator.create_config_file (pc : PathCreator) (fs : FS) (config : PyDict) : Except PyErr FS :=
  fs.writeFile pc.path_generator.config_path (.dict config)

/-- `create_checkpoits_dir` (sic): reads `self.path_generator.checkpoints_path`,
an attribute `PathGenerator` does not define (it defines `checkpoint_path`),
so the access raises `AttributeError` before `os.makedirs` runs. -/
def PathCreator.create_checkpoits_dir (pc : PathCreator) (fs : FS) : Except PyErr FS := do
  let p ← pc.path_generator.getattrStr "checkpoints_path"
  pure (fs.makedirs p)

/-- `create_results_dir`. -/
def PathCreator.create_results_dir (pc : PathCreator) (fs : FS) : Except PyErr FS := do
  let p ← pc.path_generator.getattrStr "results_path"
  pure (fs.makedirs p)

/-- `create_tensorboard_dir`. -/
def PathCreator.create_tensorboard_dir (pc : PathCreator) (fs : FS) : Except PyErr FS := do
  let p ← pc.path_generator.getattrStr "tensorboard_path"
  pure (fs.makedirs p)

/-- `create_figures_dir`. -/
def PathCreator.create_figures_dir (pc : PathCreator) (fs : FS) : Except PyErr FS := do
  let p ← pc.path_generator.getattrStr "figures_path"
  pure (fs.makedirs p)

/-- `ExperimentConfig` field record. -/
structure ExperimentConfig where
  project : PyVal
  model_type : PyVal
  parameters : PyVal

/-- `ExperimentConfig(**d)`.  Because `@dataclass(frozen=True)` installs a
generated initializer over the inherited pydantic one, the call succeeds
exactly when the keyword set is precisely `project`, `model_type`,
`parameters` (a missing or unexpected keyword raises `TypeError`). -/
def ExperimentConfig.fromKwargs (d : PyDict) : Except PyErr ExperimentConfig :=
  match lookupStr d "project", lookupStr d "model_type", lookupStr d "parameters" with
  | some p, some m, some prm =>
    if d.all (fun kv => kv.1 = "project" || kv.1 = "model_type" || kv.1 = "parameters") then
      .ok ⟨p, m, prm⟩
    else .error .typeError
  | _, _, _ => .error .typeError

/-- `.dict(by_alias=True)`: the three fields back as a dict. -/
def ExperimentConfig.toDict (c : ExperimentConfig) : PyDict :=
  [("project", c.project), ("model_type", c.model_type), ("parameters", c.parameters)]

/-- `Experiment` value (what `__init__` would produce if it could). -/
structure Experiment where
  path : String
  config : PyDict
  paths : PathGenerator
  model_class : PyObj
  trainer_class : PyObj
  parameters_class : PyObj

/-- `Experiment.__init__`: the class is `@dataclass(frozen=True)` with a
hand-written initializer whose first statement `self.path = path` already
goes through the frozen `__setattr__`; the remaining statements are kept for
faithfulness but are dead code.  `config["project"]` / `config["model_type"]`
are passed to the resolver rendered as strings. -/
def Experiment.init (env : ModuleEnv) (path : String) (config : PyDict) : Except PyErr Experiment := do
  frozenSetattr "path"
  frozenSetattr "config"
  frozenSetattr "paths"
  let project ← dictGet config "project"
  let model_type ← dictGet config "model_type"
  let model_class ← get_model_class env project.format model_type.format
  frozenSetattr "model_class"
  let trainer_class ← get_model_trainer env project.format model_type.format
  frozenSetattr "trainer_class"
  let parameters_class ← get_model_parameters env project.format model_type.format
  frozenSetattr "parameters_class"
  pure ⟨path, config, PathGenerator.mk path, model_class, trainer_class, parameters_class⟩

/-- `Experiment.open(path)` (renamed: `open` is a Lean keyword).  Note the
source reads the file at `path` ITSELF (`with open(path, "r")`), not at
`<path>/config`; it then builds `ExperimentConfig(**loaded).dict(by_alias=True)`
and constructs the `Experiment`. -/
def Experiment.openExperiment (env : ModuleEnv) (fs : FS) (path : String) : Except PyErr Experiment := do
  let loaded ← fs.readFile path
  let d ← match loaded with
          | .dict d => pure d
          | _ => (.error .typeError : Except PyErr PyDict)
  let cfg ← ExperimentConfig.fromKwargs d
  Experiment.init env path cfg.toDict

/-- `generate_new_name`: `f"{project}-{model_type}-{timestamp}"` from
`config["project"]` and `config["model_type"]`; the wall-clock
`time.strftime` result is the explicit `timestamp` argument. -/
def Experiment.generate_new_name (config : PyDict) (timestamp : String) : Except PyErr String := do
  let project ← dictGet config "project"
  let model_type ← dictGet config "model_type"
  pure (project.format ++ "-" ++ model_type.format ++ "-" ++ timestamp)

/-- `Experiment.create_from_dict(config, outdir)`, state-threaded so the
file-system state at the point of an exception is observable.  Order as in
the source: generate the name, check `os.path.exists`, `os.mkdir`, construct
the `PathCreator` (which raises, see `PathCreator.init`), write the config
file, create the four subdirectories, construct the `Experiment`. -/
def Experiment.create_from_dict (env : ModuleEnv) (fs : FS) (config : PyDict) (outdir : String) (timestamp : String) : FS × Except PyErr Experiment :=
  match Experiment.generate_new_name config timestamp with
  | .error e => (fs, .error e)
  | .ok name =>
    let path := joinPath outdir name
    if fs.existsPath path then (fs, .error .fileExistsError)
    else
      match fs.mkdir path with
      | .error e => (fs, .error e)
      | .ok fs1 =>
        match PathCreator.init path with
        | .error e => (fs1, .error e)
        | .ok path_creator =>
          match path_creator.create_config_file fs1 config with
          | .error e => (fs1, .error e)
          | .ok fs2 =>
            match path_creator.create_checkpoits_dir fs2 with
            | .error e => (fs2, .error e)
            | .ok fs3 =>
              match path_creator.create_results_dir fs3 with
              | .error e => (fs3, .error e)
              | .ok fs4 =>
                match path_creator.create_tensorboard_dir fs4 with
                | .error e => (fs4, .error e)
                | .ok fs5 =>
                  match path_creator.create_figures_dir fs5 with
                  | .error e => (fs5, .error e)
                  | .ok fs6 =>
                    match Experiment.init env path config with
                    | .error e => (fs6, .error e)
                    | .ok exp => (fs6, .ok exp)

/-- `_create_element_path`: `get_path_by_name` (re-raising its
`AttributeError`) then `os.path.join` with the element's name.  The
persistence methods below are methods on `Experiment`; since the frozen
constructor admits no instance, they are parameterized by the `paths` field
they read (`self.paths`), with bodies translated verbatim. -/
def Experiment.create_element_path (paths : PathGenerator) (element_name name : String) : Except PyErr String := do
  let p ← paths.get_path_by_name element_name
  pure (joinPath p name)

/-- `_is_element_available`: `os.path.isfile` on the element path. -/
def Experiment.is_element_available (paths : PathGenerator) (fs : FS) (element_name name : String) : Except PyErr Bool := do
  let p ← Experiment.create_element_path paths element_name name
  pure (fs.isFile p)

/-- `_load_element`: `torch.load` from the element path (missing file ↦
`FileNotFoundError`). -/
def Experiment.load_element (paths : PathGenerator) (fs : FS) (element_name name : String) : Except PyErr PyVal := do
  let p ← Experiment.create_element_path paths element_name name
  fs.readFile p

/-- `_save_element`: `torch.save` to the element path. -/
def Experiment.save_element (paths : PathGenerator) (fs : FS) (element : PyVal) (element_name name : String) : Except PyErr FS := do
  let p ← Experiment.create_element_path paths element_name name
  fs.writeFile p element

/-- `is_checkpoint_available`. -/
def Experiment.is_checkpoint_available (paths : PathGenerator) (fs : FS) (name : String) : Except PyErr Bool :=
  Experiment.is_element_available paths fs "checkpoints" name

/-- `is_results_available`. -/
def Experiment.is_results_available (paths : PathGenerator) (fs : FS) (name : String) : Except PyErr Bool :=
  Experiment.is_element_available paths fs "results" name

/-- `load_checkpoint`. -/
def Experiment.load_checkpoint (paths : PathGenerator) (fs : FS) (name : String) : Except PyErr PyVal :=
  Experiment.load_element paths fs "checkpoints" name

/-- `save_checkpoint`. -/
def Experiment.save_checkpoint (paths : PathGenerator) (fs : FS) (checkpoint : PyVal) (name : String) : Except PyErr FS :=
  Experiment.save_element paths fs checkpoint "checkpoints" name

/-- `load_results`. -/
def Experiment.load_results (paths : PathGenerator) (fs : FS) (name : String) : Except PyErr PyVal :=
  Experiment.load_element paths fs "results" name

/-- `save_results`. -/
def Experiment.save_results (paths : PathGenerator) (fs : FS) (results : PyVal) (name : String) : Except PyErr FS :=
  Experiment.save_element paths fs results "results" name

/-! ## Fixtures and helper lemmas -/

/-- Whether a call returned normally rather than raising. -/
def exceptIsOk {α : Type} : Except PyErr α → Bool
  | .ok _ => true
  | .error _ => false

/-- The example scenario's configuration from the spec. -/
def demoConfig : PyDict :=
  [("project", .str "demo"), ("model_type", .str "mlp"),
   ("parameters", .dict [("layers", .int 3)])]

/-- An environment with no importable project modules (component resolution
is never reached in the scenarios that use it). -/
def demoEnv : ModuleEnv := ⟨[]⟩

/-- A fixed second-resolution timestamp for the scenarios. -/
def demoTS : String := "2024-01-01-00-00-00"

/-- The experiment directory `create` computes for the scenario. -/
def demoPath : String := "out/demo-mlp-2024-01-01-00-00-00"

/-- Environment where `proj.models.m.model` holds a member `M`; the module
paths are only importable with the project spelled `proj`. -/
def caseEnv : ModuleEnv := ⟨[("proj.models.m", []), ("proj.models.m.model", [("M", 5)])]⟩

/-- Environment whose only component submodule holds the single member `X`. -/
def missEnv : ModuleEnv := ⟨[("p.models.m", []), ("p.models.m.model", [("X", 1)])]⟩

/-- Environment where `proj.models.mlp.model` declares `MLP` (mixed case). -/
def mlpEnv : ModuleEnv := ⟨[("proj.models.mlp", [("x", 0)]), ("proj.models.mlp.model", [("MLP", 7)])]⟩

/-- The path layout of an already-created experiment rooted at `r`. -/
def demoPaths : PathGenerator := ⟨"r"⟩

/-- File system holding that experiment's `results` and `checkpoints`
directories. -/
def demoFS : FS := ⟨["r", "r/results", "r/checkpoints"], []⟩

/-- The blob of the spec's example scenario. -/
def demoBlob : PyVal := .dict [("epoch", .int 1)]

/-- `demoFS` after the results blob `e1` has been written. -/
def demoFSSaved : FS := ⟨["r", "r/results", "r/checkpoints"], [("r/results/e1", demoBlob)]⟩

/-- A file system already containing the directory `create` would generate
for `demoConfig` at `demoTS`. -/
def takenFS : FS := ⟨["out", "out/demo-mlp-2024-01-01-00-00-00"], []⟩

/-- A successful association-list lookup locates a member of the list. -/
theorem lookupStr_mem {β : Type} (l : List (String × β)) (k : String) (v : β)
    (h : lookupStr l k = some v) : (k, v) ∈ l := by
  induction l with
  | nil => simp [lookupStr] at h
  | cons q rest ih =>
    obtain ⟨a, b⟩ := q
    by_cases ha : a = k
    · subst ha
      simp [lookupStr] at h
      subst h
      exact List.mem_cons_self _ _
    · simp [lookupStr, ha] at h
      exact List.mem_cons_of_mem _ (ih h)

/-- The member picked by the source's `header.index` / list indexing dance
has a name that lower-cases to the searched (already lower-cased) name. -/
theorem getD_indexOf_pyLower (cnL : String) (members : List (String × PyObj))
    (h : cnL ∈ members.map (fun q => pyLower q.1)) :
    pyLower ((members.getD (indexOfStr (members.map (fun q => pyLower q.1)) cnL) ("", 0)).1) = cnL := by
  induction members with
  | nil => simp at h
  | cons q rest ih =>
    by_cases hq : pyLower q.1 = cnL
    · simp [indexOfStr, hq]
    · have h' : cnL ∈ rest.map (fun q => pyLower q.1) := by
        rw [List.map_cons] at h
        rcases List.mem_cons.mp h with h0 | h0
        · exact absurd h0.symm hq
        · exact h0
      simp only [List.map_cons, indexOfStr, if_neg hq, List.getD_cons_succ]
      exact ih h'

/-- A bind whose continuation always raises, raises. -/
theorem exceptIsOk_bind_false {α β : Type} (x : Except PyErr α) (f : α → Except PyErr β)
    (h : ∀ a, exceptIsOk (f a) = false) : exceptIsOk (x >>= f) = false := by
  cases x with
  | error e => rfl
  | ok a => exact h a

/-- `Experiment.__init__` raises at its first field assignment. -/
theorem experiment_init_raises (env : ModuleEnv) (path : String) (config : PyDict) :
    Experiment.init env path config = .error .frozenInstanceError := rfl

/-- `PathCreator.__init__` raises at its field assignment. -/
theorem pathCreator_init_raises (root : String) :
    PathCreator.init root = .error .frozenInstanceError := rfl

/-! ## The claims -/

/-- C1: on the spec's example scenario (config with project `demo`, model
type `mlp`, an empty output directory `out`), `create` does NOT produce the
five-subpath layout and an Experiment: it creates only the root directory
`out/demo-mlp-<timestamp>` and then raises `FrozenInstanceError` while
constructing the frozen `PathCreator`, leaving no config file and no
subdirectories (the resulting file list is empty). -/
theorem c1_create_stops_after_mkdir :
    Experiment.create_from_dict demoEnv ⟨["out"], []⟩ demoConfig "out" demoTS
      = (⟨[demoPath, "out"], []⟩, .error .frozenInstanceError) := rfl

/-- C2: the create/open round trip of the example scenario fails twice over:
`create` raises `FrozenInstanceError` (returning no Experiment), and `open`
on the directory path `create` produced tries to read that directory itself
as a file and raises `IsADirectoryError`, so no Experiment with the original
config is ever obtained. -/
theorem c2_create_open_roundtrip_fails :
    Experiment.create_from_dict demoEnv ⟨["out"], []⟩ demoConfig "out" demoTS
      = (⟨[demoPath, "out"], []⟩, .error .frozenInstanceError) ∧
    Experiment.openExperiment demoEnv ⟨[demoPath, "out"], []⟩ demoPath
      = .error .isADirectoryError := ⟨rfl, rfl⟩

/-- C3: for every environment, file system, path and config dict, the
hand-written initializers of the frozen dataclasses `Experiment` and
`PathCreator` raise `FrozenInstanceError` at their first field assignment;
consequently no call of `create_from_dict` or of `open` ever returns an
Experiment value. -/
theorem c3_frozen_constructors_always_raise (env : ModuleEnv) (fs : FS)
    (path root outdir timestamp : String) (config : PyDict) :
    Experiment.init env path config = .error .frozenInstanceError ∧
    PathCreator.init root = .error .frozenInstanceError ∧
    exceptIsOk (Experiment.create_from_dict env fs config outdir timestamp).2 = false ∧
    exceptIsOk (Experiment.openExperiment env fs path) = false := by
  refine ⟨rfl, rfl, ?_, ?_⟩
  · unfold Experiment.create_from_dict
    cases hg : Experiment.generate_new_name config timestamp with
    | error e => rfl
    | ok name =>
      dsimp only
      split
      · rfl
      · split
        · rfl
        · rfl
  · unfold Experiment.openExperiment
    refine exceptIsOk_bind_false _ _ (fun loaded => ?_)
    cases loaded with
    | str s => rfl
    | int n => rfl
    | dict d =>
      exact exceptIsOk_bind_false _ _ (fun d2 => exceptIsOk_bind_false _ _ (fun cfg => rfl))

/-- C4 counterexample: the claim's "all four identifiers are normalized to
lower case" fails for `project`.  In `caseEnv` the two calls below agree on
all four identifiers after lower-casing, yet the `proj` spelling resolves
the member while the `Proj` spelling raises `ModuleNotFoundError`, because
the source lower-cases `model_type`, `component_type` and `component_name`
but uses `project` as given when building the module path. -/
theorem c4_project_case_counterexample :
    pyLower "Proj" = pyLower "proj" ∧
    get_model_component_class caseEnv "proj" "m" "model" "m" = .ok 5 ∧
    get_model_component_class caseEnv "Proj" "m" "model" "m" = .error .moduleNotFoundError ∧
    exceptIsOk (get_model_component_class caseEnv "proj" "m" "model" "m") = true ∧
    exceptIsOk (get_model_component_class caseEnv "Proj" "m" "model" "m") = false :=
  ⟨rfl, rfl, rfl, rfl, rfl⟩

/-- C4 (amended): resolution is case-insensitive in `model_type`,
`component_type` and `component_name` — two resolve calls with the same
`project` (compared case-sensitively, as given) whose other three
identifiers agree after lower-casing return the same result; those three
identifiers are normalized to lower case before matching and the lookup
space of submodule member names is normalized member-by-member. -/
theorem c4_lower_three_identifiers (env : ModuleEnv) (project mt1 mt2 ct1 ct2 cn1 cn2 : String)
    (h1 : pyLower mt1 = pyLower mt2) (h2 : pyLower ct1 = pyLower ct2)
    (h3 : pyLower cn1 = pyLower cn2) :
    get_model_component_class env project mt1 ct1 cn1
      = get_model_component_class env project mt2 ct2 cn2 := by
  unfold get_model_component_class
  rw [h1, h2, h3]

/-- C4 witness: a concrete pair of mixed-case calls with identical project
resolve to the same component. -/
theorem c4_lower_three_identifiers_check :
    (pyLower "MLP" = pyLower "mlp" ∧ pyLower "Model" = pyLower "model" ∧
     pyLower "mLp" = pyLower "mlp") ∧
    get_model_component_class mlpEnv "proj" "MLP" "Model" "mLp"
      = get_model_component_class mlpEnv "proj" "mlp" "model" "mlp" :=
  ⟨⟨rfl, rfl, rfl⟩,
   c4_lower_three_identifiers mlpEnv "proj" "MLP" "mlp" "Model" "model" "mLp" "mlp" rfl rfl rfl⟩

/-- C5: the resolver's failure modes are exactly separated — when the
model-type module or its component-type submodule is not importable the call
raises `ModuleNotFoundError` (the spec's ModuleNotFound), never
`AttributeError`; when both import but no case-insensitive match for the
component name exists among the submodule's members, it raises
`AttributeError` (the spec's ComponentNotFound). -/
theorem c5_resolver_error_separation (env : ModuleEnv)
    (project model_type component_type component_name : String) :
    ((lookupStr env.modules (project ++ ".models." ++ pyLower model_type) = none ∨
      lookupStr env.modules
        (project ++ ".models." ++ pyLower model_type ++ "." ++ pyLower component_type) = none) →
      get_model_component_class env project model_type component_type component_name
        = .error .moduleNotFoundError) ∧
    (∀ mm cm,
      lookupStr env.modules (project ++ ".models." ++ pyLower model_type) = some mm →
      lookupStr env.modules
        (project ++ ".models." ++ pyLower model_type ++ "." ++ pyLower component_type) = some cm →
      pyLower component_name ∉ (getmembers cm).map (fun q => pyLower q.1) →
      get_model_component_class env project model_type component_type component_name
        = .error .attributeError) := by
  constructor
  · intro h
    unfold get_model_component_class importModule
    dsimp only
    rcases h with h | h
    · rw [h]
    · rw [h]
      cases lookupStr env.modules (project ++ ".models." ++ pyLower model_type) <;> rfl
  · intro mm cm hmm hcm hnot
    unfold get_model_component_class importModule
    dsimp only
    rw [hmm, hcm]
    dsimp only
    rw [if_neg hnot]

/-- C5 witness: a missing model-type module raises `ModuleNotFoundError`; an
absent member name in an importable submodule raises `AttributeError`. -/
theorem c5_resolver_error_separation_check :
    get_model_component_class missEnv "p" "miss" "model" "x" = .error .moduleNotFoundError ∧
    get_model_component_class missEnv "p" "m" "model" "y" = .error .attributeError :=
  ⟨(c5_resolver_error_separation missEnv "p" "miss" "model" "x").1 (Or.inl rfl),
   (c5_resolver_error_separation missEnv "p" "m" "model" "y").2 [] [("X", 1)] rfl rfl (by decide)⟩

/-- C6: saving under category `checkpoints` never succeeds — `save` raises
`AttributeError` because `get_path_by_name` looks up `checkpoints_path`, an
attribute `PathGenerator` does not define (it defines `checkpoint_path`).
The same round trip succeeds for category `results`: save writes the blob,
exists is true in between, and load returns the saved blob. -/
theorem c6_checkpoint_save_raises :
    Experiment.save_checkpoint demoPaths demoFS demoBlob "e1" = .error .attributeError ∧
    Experiment.save_results demoPaths demoFS demoBlob "e1" = .ok demoFSSaved ∧
    Experiment.is_results_available demoPaths demoFSSaved "e1" = .ok true ∧
    Experiment.load_results demoPaths demoFSSaved "e1" = .ok demoBlob :=
  ⟨rfl, rfl, rfl, rfl⟩

/-- C7: `exists` is not exception-free over both categories — checking a
checkpoint raises `AttributeError` through the same missing
`checkpoints_path` attribute, while for category `results` a missing
category directory and missing file indeed just yield `false`. -/
theorem c7_checkpoint_exists_raises :
    Experiment.is_checkpoint_available demoPaths demoFS "e1" = .error .attributeError ∧
    Experiment.is_results_available demoPaths ⟨["r"], []⟩ "e1" = .ok false :=
  ⟨rfl, rfl⟩

/-- C8: `open(path)` does not deserialize `<path>/config`: with a valid
config stored at `d/config`, `open("d")` reads the directory `d` itself and
raises `IsADirectoryError`; and even when a valid config is readable at the
given path, `open` raises `FrozenInstanceError` constructing the Experiment
instead of returning it, so failures are not restricted to required-key
validation. -/
theorem c8_open_reads_path_itself :
    Experiment.openExperiment demoEnv ⟨["d"], [("d/config", .dict demoConfig)]⟩ "d"
      = .error .isADirectoryError ∧
    Experiment.openExperiment demoEnv ⟨[], [("d", .dict demoConfig)]⟩ "d"
      = .error .frozenInstanceError :=
  ⟨rfl, rfl⟩

/-- C9: when the output directory already contains a directory with the
exact generated name `<project>-<model_type>-<timestamp>`, `create` raises
`FileExistsError` (the spec's AlreadyExists) and the file-system state is
returned unchanged: the existence check precedes `os.mkdir`, so nothing is
created. -/
theorem c9_create_already_exists (env : ModuleEnv) (fs : FS) (config : PyDict)
    (outdir timestamp : String) (pv mv : PyVal)
    (hp : lookupStr config "project" = some pv)
    (hm : lookupStr config "model_type" = some mv)
    (hex : fs.existsPath (joinPath outdir (pv.format ++ "-" ++ mv.format ++ "-" ++ timestamp)) = true) :
    Experiment.create_from_dict env fs config outdir timestamp
      = (fs, .error .fileExistsError) := by
  have hgen : Experiment.generate_new_name config timestamp
      = .ok (pv.format ++ "-" ++ mv.format ++ "-" ++ timestamp) := by
    simp only [Experiment.generate_new_name, dictGet, hp, hm]
    rfl
  unfold Experiment.create_from_dict
  rw [hgen]
  dsimp only
  rw [if_pos hex]

/-- C9 witness: the scenario config against a file system that already holds
`out/demo-mlp-2024-01-01-00-00-00`. -/
theorem c9_create_already_exists_check :
    lookupStr demoConfig "project" = some (.str "demo") ∧
    lookupStr demoConfig "model_type" = some (.str "mlp") ∧
    FS.existsPath takenFS
      (joinPath "out" ((PyVal.str "demo").format ++ "-" ++ (PyVal.str "mlp").format ++ "-" ++ demoTS)) = true ∧
    Experiment.create_from_dict demoEnv takenFS demoConfig "out" demoTS
      = (takenFS, .error .fileExistsError) :=
  ⟨rfl, rfl, rfl,
   c9_create_already_exists demoEnv takenFS demoConfig "out" demoTS _ _ rfl rfl rfl⟩

/-- C10: a successful resolve returns the value bound in the component
submodule to a member name whose lower-casing matches the (lower-cased)
requested component name — i.e. the member under its true declared name and
casing; and the three derived lookups are made under exactly the documented
component types and names: model ↦ (`model`, model_type), trainer ↦
(`trainer`, model_type + `trainer`), parameter schema ↦ (`config`,
model_type + `parameters`). -/
theorem c10_resolution_uses_declared_names (env : ModuleEnv)
    (project model_type component_type component_name : String) :
    (∀ v, get_model_component_class env project model_type component_type component_name = .ok v →
      ∃ cm n, lookupStr env.modules
          (project ++ ".models." ++ pyLower model_type ++ "." ++ pyLower component_type) = some cm ∧
        lookupStr cm n = some v ∧ (n, v) ∈ cm ∧ pyLower n = pyLower component_name) ∧
    get_model_class env project model_type
      = get_model_component_class env project model_type "model" model_type ∧
    get_model_trainer env project model_type
      = get_model_component_class env project model_type "trainer" (model_type ++ "trainer") ∧
    get_model_parameters env project model_type
      = get_model_component_class env project model_type "config" (model_type ++ "parameters") := by
  refine ⟨?_, rfl, rfl, rfl⟩
  intro v hv
  unfold get_model_component_class importModule at hv
  dsimp only at hv
  cases hmm : lookupStr env.modules (project ++ ".models." ++ pyLower model_type) with
  | none => rw [hmm] at hv; simp at hv
  | some mm =>
    rw [hmm] at hv
    dsimp only at hv
    cases hcm : lookupStr env.modules
        (project ++ ".models." ++ pyLower model_type ++ "." ++ pyLower component_type) with
    | none => rw [hcm] at hv; simp at hv
    | some cm =>
      rw [hcm] at hv
      dsimp only at hv
      by_cases hmem : pyLower component_name ∈ (getmembers cm).map (fun q => pyLower q.1)
      · rw [if_pos hmem] at hv
        cases hlook : lookupStr cm
            ((List.getD (getmembers cm)
              (indexOfStr ((getmembers cm).map (fun q => pyLower q.1)) (pyLower component_name))
              ("", 0)).1) with
        | none => rw [hlook] at hv; simp at hv
        | some c =>
          rw [hlook] at hv
          injection hv with hv
          subst hv
          exact ⟨cm, _, rfl, hlook, lookupStr_mem _ _ _ hlook,
            getD_indexOf_pyLower _ _ hmem⟩
      · rw [if_neg hmem] at hv; simp at hv

/-- C10 witness: in `mlpEnv` the request for component name `Mlp` returns
the object bound to the declared name `MLP` of `proj.models.mlp.model`. -/
theorem c10_resolution_uses_declared_names_check :
    get_model_component_class mlpEnv "proj" "mlp" "model" "Mlp" = .ok 7 ∧
    (∃ cm n, lookupStr mlpEnv.modules
        ("proj" ++ ".models." ++ pyLower "mlp" ++ "." ++ pyLower "model") = some cm ∧
      lookupStr cm n = some 7 ∧ (n, 7) ∈ cm ∧ pyLower n = pyLower "Mlp") :=
  ⟨rfl, (c10_resolution_uses_declared_names mlpEnv "proj" "mlp" "model" "Mlp").1 7 rfl⟩

end Experitorch
